import Mathlib

/-!
Shallow embedding of the validation layer of the vManage client SDK
(src/vmngclient/models/policy/lists_entries.py and the endpoint descriptor
files under src/vmngclient/endpoints/configuration/policy/list/), together
with theorems settling the specification claims about it.

Python string-level semantics (the builtin int() parser and str.split with a
one-character separator) are modelled explicitly, since the validators call
them on raw field values.
-/

/-- Characters stripped by Python's int() before parsing: ASCII whitespace. -/
def pyIsSpace (c : Char) : Bool :=
  c = ' ' || c = '\t' || c = '\n' || c = '\x0d' || c = '\x0b' || c = '\x0c'

/-- No two consecutive underscore characters occur in the list. -/
def noDoubleUnderscore : List Char → Bool
  | '_' :: '_' :: _ => false
  | _ :: rest => noDoubleUnderscore rest
  | [] => true

/-- A digit sequence acceptable to Python's int(): nonempty, begins and ends
with a decimal digit, contains only digits and single underscores used as
separators between digits. -/
def pyDigitsOk (cs : List Char) : Bool :=
  match cs with
  | [] => false
  | c :: _ =>
    c.isDigit && ((cs.getLast?.map Char.isDigit).getD false)
      && cs.all (fun d => d.isDigit || d = '_') && noDoubleUnderscore cs

/-- Numeric value of a digit list, skipping underscore separators. -/
def digitsToNat (cs : List Char) : Nat :=
  cs.foldl (fun a c => if c.isDigit then a * 10 + (c.toNat - 48) else a) 0

/-- Python's builtin int() applied to a string: strip surrounding whitespace,
allow one optional sign, then a digit sequence with optional single
underscore separators; any other shape raises ValueError, modelled as none. -/
def pythonInt (s : String) : Option Int :=
  let stripped := ((s.toList.dropWhile pyIsSpace).reverse.dropWhile pyIsSpace).reverse
  match stripped with
  | [] => none
  | '+' :: rest => if pyDigitsOk rest then some (digitsToNat rest) else none
  | '-' :: rest => if pyDigitsOk rest then some (-(digitsToNat rest : Int)) else none
  | cs => if pyDigitsOk cs then some (digitsToNat cs) else none

/-- Python's str.split with the given one-character separator on a character
list: always returns at least one (possibly empty) chunk, and keeps empty
chunks between consecutive separators. -/
def pySplitChar (sep : Char) : List Char → List (List Char)
  | [] => [[]]
  | c :: rest =>
    if c = sep then [] :: pySplitChar sep rest
    else
      match pySplitChar sep rest with
      | [] => [[c]]
      | t :: ts => (c :: t) :: ts

/-- Python's str.split with a one-character separator, on strings. -/
def pySplit (sep : Char) (s : String) : List String :=
  (pySplitChar sep s.toList).map (fun cs => String.mk cs)

/-- Equality of the element sets of two lists, the comparison Python performs
between two set(...) values built from lists of strings. -/
def listSetEq (a b : List String) : Bool :=
  a.all (fun x => b.contains x) && b.all (fun x => a.contains x)

/-- Validation of an optional field by a field validator: pydantic runs the
validator only when the field carries a value. -/
def validateOptField (check : String → Except String String) :
    Option String → Except String Unit
  | none => .ok ()
  | some s => (check s).map (fun _ => ())

/-- Validator check_jitter_ms from lists_entries.py: int(jitter_str) must lie
in 1-1000, and the original string is returned unchanged. -/
def check_jitter_ms (jitter_str : String) : Except String String :=
  match pythonInt jitter_str with
  | none => .error "invalid literal for int() with base 10"
  | some jitter =>
    if jitter < 1 ∨ jitter > 1000 then .error "jitter should be in range 1-1000"
    else .ok jitter_str

/-- Validator check_latency_ms from lists_entries.py: int(latency_str) must
lie in 1-1000, and the original string is returned unchanged. -/
def check_latency_ms (latency_str : String) : Except String String :=
  match pythonInt latency_str with
  | none => .error "invalid literal for int() with base 10"
  | some latency =>
    if latency < 1 ∨ latency > 1000 then .error "latency should be in range 1-1000"
    else .ok latency_str

/-- Validator check_loss_percent from lists_entries.py: int(loss_str) must
lie in 0-100, and the original string is returned unchanged. -/
def check_loss_percent (loss_str : String) : Except String String :=
  match pythonInt loss_str with
  | none => .error "invalid literal for int() with base 10"
  | some loss =>
    if loss < 0 ∨ loss > 100 then .error "loss should be in range 0-100"
    else .ok loss_str

/-- Model FallbackBestTunnel: criteria string plus three optional variance
fields (wire aliases jitterVariance, latencyVariance, lossVariance). -/
structure FallbackBestTunnel where
  criteria : String
  jitter_variance : Option String := none
  latency_variance : Option String := none
  loss_variance : Option String := none
deriving DecidableEq, Repr

/-- The expected criteria names built by FallbackBestTunnel.check_criteria:
one name for each variance field that is set, in the order jitter, latency,
loss (the Python code builds a set; the elements here are distinct by
construction). -/
def FallbackBestTunnel.expectedCriteria (t : FallbackBestTunnel) : List String :=
  (if t.jitter_variance.isSome then ["jitter"] else [])
    ++ (if t.latency_variance.isSome then ["latency"] else [])
    ++ (if t.loss_variance.isSome then ["loss"] else [])

/-- Model validator FallbackBestTunnel.check_criteria: at least one variance
field must be set, and the set of hyphen-separated tokens of the criteria
string must equal the set of names of the variance fields that are set. -/
def FallbackBestTunnel.check_criteria (t : FallbackBestTunnel) :
    Except String FallbackBestTunnel :=
  let expected_criteria := t.expectedCriteria
  if expected_criteria.length < 1 then
    .error "At least one variance type needs to be present"
  else
    let observed_criteria := pySplit '-' t.criteria
    if ¬ (listSetEq expected_criteria observed_criteria = true) then
      if expected_criteria.length = 1 then
        .error "Criteria must contain the expected criteria"
      else
        .error "Criteria must contain the expected criteria separated by hyphen"
    else
      .ok t

/-- Full validation of FallbackBestTunnel: pydantic runs the field validators
on the variance fields in field order, then the model validator
check_criteria. -/
def FallbackBestTunnel.validate (t : FallbackBestTunnel) :
    Except String FallbackBestTunnel :=
  match validateOptField check_jitter_ms t.jitter_variance with
  | .error e => .error e
  | .ok _ =>
    match validateOptField check_latency_ms t.latency_variance with
    | .error e => .error e
    | .ok _ =>
      match validateOptField check_loss_percent t.loss_variance with
      | .error e => .error e
      | .ok _ => t.check_criteria

/-- Path preference values of PathPreferenceEnum. -/
inductive PathPreferenceEnum where
  | DIRECT_PATH
  | MULTI_HOP_PATH
  | ALL_PATHS
deriving DecidableEq, Repr

/-- Coercion of a wire string to PathPreferenceEnum by its declared value. -/
def PathPreferenceEnum.ofString : String → Option PathPreferenceEnum
  | "direct-path" => some .DIRECT_PATH
  | "multi-hop-path" => some .MULTI_HOP_PATH
  | "all-paths" => some .ALL_PATHS
  | _ => none

/-- Exceed actions of PolicerExceedAction. -/
inductive PolicerExceedAction where
  | DROP
  | REMARK
deriving DecidableEq, Repr

/-- An IPv4 network value as produced by the Python ipaddress library: the
wire-string parsing done by pydantic is library behaviour outside this
repository, so a network is represented by its already-parsed address value
and prefix length. -/
structure IPv4Network where
  addr : Nat
  prefixLen : Nat
deriving DecidableEq, Repr

/-- An IPv6 network value, represented like IPv4Network. -/
structure IPv6Network where
  addr : Nat
  prefixLen : Nat
deriving DecidableEq, Repr

/-- Key resolution of pydantic with populate_by_name=True: an input key equal
to the field alias populates the field, and so does one equal to the
code-friendly field name. -/
def populateByNameLookup (d : List (String × α)) (fieldName fieldAlias : String) :
    Option α :=
  match d.lookup fieldAlias with
  | some v => some v
  | none => d.lookup fieldName

/-- Model ColorGroupPreference: color_preference aliased to colorPreference
and path_preference aliased to pathPreference, with populate_by_name. -/
structure ColorGroupPreference where
  color_preference : String
  path_preference : PathPreferenceEnum
deriving DecidableEq, Repr

/-- Construction of ColorGroupPreference from an input dictionary of wire
string values: each field is populated from its alias or its field name, and
path_preference is coerced to the enum. -/
def ColorGroupPreference.from_dict (d : List (String × String)) :
    Option ColorGroupPreference :=
  match populateByNameLookup d "color_preference" "colorPreference" with
  | none => none
  | some cp =>
    match populateByNameLookup d "path_preference" "pathPreference" with
    | none => none
    | some pps =>
      match PathPreferenceEnum.ofString pps with
      | none => none
      | some pp => some ⟨cp, pp⟩

/-- Model DataPrefixListEntry with its single field aliased to ipPrefix. -/
structure DataPrefixListEntry where
  ip_prefix : IPv4Network
deriving DecidableEq, Repr

/-- Construction of DataPrefixListEntry from an input dictionary whose values
are already-parsed IPv4 networks: the field is populated from its alias
ipPrefix or its field name, per populate_by_name. -/
def DataPrefixListEntry.from_dict (d : List (String × IPv4Network)) :
    Option DataPrefixListEntry :=
  match populateByNameLookup d "ip_prefix" "ipPrefix" with
  | none => none
  | some v => some ⟨v⟩

/-- Model VPNListEntry: a vpn string holding a single number or a range. -/
structure VPNListEntry where
  vpn : String
deriving DecidableEq, Repr

/-- Parse every string of a list with Python's int(), as the comprehension
[int(vpn) for vpn in vpns_str.split("-")] does: the first failure raises,
modelled as none. -/
def pythonIntList : List String → Option (List Int)
  | [] => some []
  | s :: rest =>
    match pythonInt s with
    | none => none
    | some v =>
      match pythonIntList rest with
      | none => none
      | some vs => some (v :: vs)

/-- Field validator VPNListEntry.check_vpn_range: split on hyphen, parse each
part with int() (any failure raises), allow at most two parts, require each
value in 0-65530, and for two parts require the first strictly below the
second. -/
def VPNListEntry.check_vpn_range (vpns_str : String) : Except String String :=
  match pythonIntList (pySplit '-' vpns_str) with
  | none => .error "invalid literal for int() with base 10"
  | some vpns =>
    if vpns.length > 2 then
      .error "VPN range should consist two integers separated by hyphen"
    else if vpns.any (fun vpn => vpn < 0 || vpn > 65530) then
      .error "VPN should be in range 0-65530"
    else
      match vpns with
      | [a, b] =>
        if a ≥ b then .error "Second VPN in range should be greater than first"
        else .ok vpns_str
      | _ => .ok vpns_str

/-- Modelled from the spec: InterfaceTypeEnum is imported from
vmngclient/models/common.py, which is not present under src/; the claims
depend only on whether an interface value is present, so the enum is
represented by its wire string value. -/
structure InterfaceTypeEnum where
  value : String
deriving DecidableEq, Repr

/-- Modelled from the spec: check_fields_exclusive is imported from
vmngclient/models/common.py, which is not present under src/. The spec
describes it as a mutually-exclusive-field check: at most one of the named
fields may be set, and when at_least_one_set is true at least one must be
set, so with two fields exactly one must be set. Each listed Bool records
whether the corresponding named field is set. -/
def check_fields_exclusive (field_set : List Bool) (at_least_one_set : Bool) :
    Except String Unit :=
  let count := (field_set.filter (fun b => b)).length
  if count > 1 then .error "fields are mutually exclusive"
  else if at_least_one_set && count == 0 then .error "at least one field must be set"
  else .ok ()

/-- Model ZoneListEntry: optional vpn string and optional interface. -/
structure ZoneListEntry where
  vpn : Option String := none
  interface : Option InterfaceTypeEnum := none
deriving DecidableEq, Repr

/-- Field validator ZoneListEntry.check_vpn_range: int(vpn_str) must lie in
0-65530. -/
def ZoneListEntry.check_vpn_range (vpn_str : String) : Except String String :=
  match pythonInt vpn_str with
  | none => .error "invalid literal for int() with base 10"
  | some vpn =>
    if vpn < 0 ∨ vpn > 65530 then .error "VPN should be in range 0-65530"
    else .ok vpn_str

/-- Model validator ZoneListEntry.check_vpn_xor_interface: exclusivity of the
vpn and interface fields via check_fields_exclusive with at_least_one_set. -/
def ZoneListEntry.check_vpn_xor_interface (e : ZoneListEntry) :
    Except String ZoneListEntry :=
  (check_fields_exclusive [e.vpn.isSome, e.interface.isSome] true).map (fun _ => e)

/-- Full validation of ZoneListEntry: the vpn field validator when vpn is
set, then the exclusivity model validator. -/
def ZoneListEntry.validate (e : ZoneListEntry) : Except String ZoneListEntry :=
  match validateOptField ZoneListEntry.check_vpn_range e.vpn with
  | .error msg => .error msg
  | .ok _ => e.check_vpn_xor_interface

/-- Model GeoLocationListEntry: optional country and continent codes. -/
structure GeoLocationListEntry where
  country : Option String := none
  continent : Option String := none
deriving DecidableEq, Repr

/-- Model validator GeoLocationListEntry.check_country_xor_continent:
exclusivity of country and continent via check_fields_exclusive with
at_least_one_set. -/
def GeoLocationListEntry.check_country_xor_continent (e : GeoLocationListEntry) :
    Except String GeoLocationListEntry :=
  (check_fields_exclusive [e.country.isSome, e.continent.isSome] true).map (fun _ => e)

/-- Full validation of GeoLocationListEntry: only the exclusivity model
validator. -/
def GeoLocationListEntry.validate (e : GeoLocationListEntry) :
    Except String GeoLocationListEntry :=
  e.check_country_xor_continent

/-- Model LocalAppListEntry: optional app_family (alias appFamily) and app. -/
structure LocalAppListEntry where
  app_family : Option String := none
  app : Option String := none
deriving DecidableEq, Repr

/-- Model validator LocalAppListEntry.check_app_xor_appfamily: exclusivity of
app and app_family via check_fields_exclusive with at_least_one_set. -/
def LocalAppListEntry.check_app_xor_appfamily (e : LocalAppListEntry) :
    Except String LocalAppListEntry :=
  (check_fields_exclusive [e.app.isSome, e.app_family.isSome] true).map (fun _ => e)

/-- Full validation of LocalAppListEntry: only the exclusivity validator. -/
def LocalAppListEntry.validate (e : LocalAppListEntry) :
    Except String LocalAppListEntry :=
  e.check_app_xor_appfamily

/-- Model AppListEntry: optional app_family (alias appFamily) and app. -/
structure AppListEntry where
  app_family : Option String := none
  app : Option String := none
deriving DecidableEq, Repr

/-- Model validator AppListEntry.check_app_xor_appfamily: exclusivity of app
and app_family via check_fields_exclusive with at_least_one_set. -/
def AppListEntry.check_app_xor_appfamily (e : AppListEntry) :
    Except String AppListEntry :=
  (check_fields_exclusive [e.app.isSome, e.app_family.isSome] true).map (fun _ => e)

/-- Full validation of AppListEntry: only the exclusivity validator. -/
def AppListEntry.validate (e : AppListEntry) : Except String AppListEntry :=
  e.check_app_xor_appfamily

/-- Model PolicerListEntry: burst and rate strings with an exceed action. -/
structure PolicerListEntry where
  burst : String
  exceed : PolicerExceedAction := .DROP
  rate : String
deriving DecidableEq, Repr

/-- Field validator PolicerListEntry.check_burst: int(burst_str) must lie in
15000-10000000, and the original string is returned unchanged. -/
def PolicerListEntry.check_burst (burst_str : String) : Except String String :=
  match pythonInt burst_str with
  | none => .error "invalid literal for int() with base 10"
  | some burst =>
    if burst < 15000 ∨ burst > 10000000 then
      .error "burst should be in range 15000-10000000"
    else .ok burst_str

/-- Field validator PolicerListEntry.check_rate: int(rate_str) must lie in
8-100000000000, and the original string is returned unchanged (the source's
error message text understates the upper bound; the check itself uses
100000000000). -/
def PolicerListEntry.check_rate (rate_str : String) : Except String String :=
  match pythonInt rate_str with
  | none => .error "invalid literal for int() with base 10"
  | some rate =>
    if rate < 8 ∨ rate > 100000000000 then
      .error "rate should be in range 8-10000000"
    else .ok rate_str

/-- Full validation of PolicerListEntry: the burst and rate field validators
in field order. -/
def PolicerListEntry.validate (e : PolicerListEntry) :
    Except String PolicerListEntry :=
  match PolicerListEntry.check_burst e.burst with
  | .error msg => .error msg
  | .ok _ =>
    match PolicerListEntry.check_rate e.rate with
    | .error msg => .error msg
    | .ok _ => .ok e

/-- Truthiness of an optional string in Python: None and the empty string
are falsy, every other string is truthy. -/
def pyTruthy : Option String → Bool
  | none => false
  | some s => !s.isEmpty

/-- Model SLAClassListEntry: optional latency, loss and jitter strings, an
optional app probe class (alias appProbeClass) and an optional fallback best
tunnel (alias fallbackBestTunnel). -/
structure SLAClassListEntry where
  latency : Option String := none
  loss : Option String := none
  jitter : Option String := none
  app_probe_class : Option String := none
  fallback_best_tunnel : Option FallbackBestTunnel := none
deriving DecidableEq, Repr

/-- Model validator SLAClassListEntry.check_at_least_one_criteria_is_set:
Python's any() over the latency, loss and jitter values, using Python
truthiness, must find at least one truthy value. -/
def SLAClassListEntry.check_at_least_one_criteria_is_set (e : SLAClassListEntry) :
    Except String SLAClassListEntry :=
  if !(pyTruthy e.latency || pyTruthy e.loss || pyTruthy e.jitter) then
    .error "At leas one of jitter, loss or latency entries must be set"
  else
    .ok e

/-- Full validation of SLAClassListEntry: the latency, loss and jitter field
validators in field order, then the model validator. -/
def SLAClassListEntry.validate (e : SLAClassListEntry) :
    Except String SLAClassListEntry :=
  match validateOptField check_latency_ms e.latency with
  | .error msg => .error msg
  | .ok _ =>
    match validateOptField check_loss_percent e.loss with
    | .error msg => .error msg
    | .ok _ =>
      match validateOptField check_jitter_ms e.jitter with
      | .error msg => .error msg
      | .ok _ => e.check_at_least_one_criteria_is_set

/-- Model PrefixListEntry: an IPv4 prefix (alias ipPrefix) with optional ge
and le strings. -/
structure PrefixListEntry where
  ip_prefix : IPv4Network
  ge : Option String := none
  le : Option String := none
deriving DecidableEq, Repr

/-- Field validator PrefixListEntry.check_ge_and_le, applied separately to
the ge and the le field: int(ge_le_str) must lie in 0-32, and the original
string is returned unchanged. -/
def PrefixListEntry.check_ge_and_le (ge_le_str : String) : Except String String :=
  match pythonInt ge_le_str with
  | none => .error "invalid literal for int() with base 10"
  | some ge_le =>
    if ge_le < 0 ∨ ge_le > 32 then .error "ge,le should be in range 0-32"
    else .ok ge_le_str

/-- Full validation of PrefixListEntry: the shared range validator on ge and
on le, each only when set; no other check relates the two fields. -/
def PrefixListEntry.validate (e : PrefixListEntry) :
    Except String PrefixListEntry :=
  match validateOptField PrefixListEntry.check_ge_and_le e.ge with
  | .error msg => .error msg
  | .ok _ =>
    match validateOptField PrefixListEntry.check_ge_and_le e.le with
    | .error msg => .error msg
    | .ok _ => .ok e

/-- Model IPv6PrefixListEntry: an IPv6 prefix (alias ipv6Prefix) with
optional ge and le strings. -/
structure IPv6PrefixListEntry where
  ipv6_prefix : IPv6Network
  ge : Option String := none
  le : Option String := none
deriving DecidableEq, Repr

/-- Field validator IPv6PrefixListEntry.check_ge_and_le, applied separately
to the ge and the le field: int(ge_le_str) must lie in 0-128, and the
original string is returned unchanged. -/
def IPv6PrefixListEntry.check_ge_and_le (ge_le_str : String) : Except String String :=
  match pythonInt ge_le_str with
  | none => .error "invalid literal for int() with base 10"
  | some ge_le =>
    if ge_le < 0 ∨ ge_le > 128 then .error "ge,le should be in range 0-128"
    else .ok ge_le_str

/-- Full validation of IPv6PrefixListEntry: the shared range validator on ge
and on le, each only when set; no other check relates the two fields. -/
def IPv6PrefixListEntry.validate (e : IPv6PrefixListEntry) :
    Except String IPv6PrefixListEntry :=
  match validateOptField IPv6PrefixListEntry.check_ge_and_le e.ge with
  | .error msg => .error msg
  | .ok _ =>
    match validateOptField IPv6PrefixListEntry.check_ge_and_le e.le with
    | .error msg => .error msg
    | .ok _ => .ok e

/-- HTTP verbs used by the endpoint decorators. -/
inductive HTTPVerb where
  | get
  | post
  | put
  | delete
deriving DecidableEq, Repr

/-- One declarative endpoint descriptor: the decorator's verb and path, the
query-parameter and payload types taken by the method, the response type it
returns (none when the method returns None), and the JSON field the response
is extracted from when the decorator names one. -/
structure EndpointDescriptor where
  verb : HTTPVerb
  path : String
  params : Option String := none
  payload : Option String := none
  response : Option String := none
  resp_json_key : Option String := none
deriving DecidableEq, Repr

namespace ConfigurationPolicyAppProbeClassList

/-- Descriptor of create_policy_list in app_probe.py. -/
def create_policy_list : EndpointDescriptor :=
  { verb := .post, path := "/template/policy/list/appprobe",
    payload := some "AppProbeClassList", response := some "PolicyListId" }

/-- Descriptor of delete_policy_list in app_probe.py. -/
def delete_policy_list : EndpointDescriptor :=
  { verb := .delete, path := "/template/policy/list/appprobe/\x7bid\x7d" }

/-- Descriptor of delete_policy_lists_with_info_tag in app_probe.py. -/
def delete_policy_lists_with_info_tag : EndpointDescriptor :=
  { verb := .delete, path := "/template/policy/list/appprobe",
    params := some "InfoTag" }

/-- Descriptor of edit_policy_list in app_probe.py. -/
def edit_policy_list : EndpointDescriptor :=
  { verb := .put, path := "/template/policy/list/appprobe/\x7bid\x7d",
    payload := some "AppProbeClassListEditPayload" }

/-- Descriptor of get_lists_by_id in app_probe.py. -/
def get_lists_by_id : EndpointDescriptor :=
  { verb := .get, path := "/template/policy/list/appprobe/\x7bid\x7d",
    response := some "AppProbeClassListInfo" }

/-- Descriptor of get_policy_lists in app_probe.py. -/
def get_policy_lists : EndpointDescriptor :=
  { verb := .get, path := "/template/policy/list/appprobe",
    response := some "DataSequence[AppProbeClassListInfo]",
    resp_json_key := some "data" }

/-- Descriptor of get_policy_lists_with_info_tag in app_probe.py. -/
def get_policy_lists_with_info_tag : EndpointDescriptor :=
  { verb := .get, path := "/template/policy/list/appprobe/filtered",
    params := some "InfoTag",
    response := some "DataSequence[AppProbeClassListInfo]",
    resp_json_key := some "data" }

/-- Descriptor of preview_policy_list in app_probe.py. -/
def preview_policy_list : EndpointDescriptor :=
  { verb := .post, path := "/template/policy/list/appprobe/preview",
    payload := some "AppProbeClassList", response := some "PolicyListPreview" }

/-- Descriptor of preview_policy_list_by_id in app_probe.py. -/
def preview_policy_list_by_id : EndpointDescriptor :=
  { verb := .get, path := "/template/policy/list/appprobe/preview/\x7bid\x7d",
    response := some "PolicyListPreview" }

end ConfigurationPolicyAppProbeClassList

namespace ConfigurationPolicyDataIPv6PrefixList

/-- Descriptor of create_policy_list in data_ipv6_prefix.py. -/
def create_policy_list : EndpointDescriptor :=
  { verb := .post, path := "/template/policy/list/dataipv6prefix",
    payload := some "DataIPv6PrefixList", response := some "PolicyListId" }

/-- Descriptor of delete_policy_list in data_ipv6_prefix.py. -/
def delete_policy_list : EndpointDescriptor :=
  { verb := .delete, path := "/template/policy/list/dataipv6prefix/\x7bid\x7d" }

/-- Descriptor of delete_policy_lists_with_info_tag in data_ipv6_prefix.py. -/
def delete_policy_lists_with_info_tag : EndpointDescriptor :=
  { verb := .delete, path := "/template/policy/list/dataipv6prefix",
    params := some "InfoTag" }

/-- Descriptor of edit_policy_list in data_ipv6_prefix.py. -/
def edit_policy_list : EndpointDescriptor :=
  { verb := .put, path := "/template/policy/list/dataipv6prefix/\x7bid\x7d",
    payload := some "DataIPv6PrefixListEditPayload" }

/-- Descriptor of get_lists_by_id in data_ipv6_prefix.py. -/
def get_lists_by_id : EndpointDescriptor :=
  { verb := .get, path := "/template/policy/list/dataipv6prefix/\x7bid\x7d",
    response := some "DataIPv6PrefixListInfo" }

/-- Descriptor of get_policy_lists in data_ipv6_prefix.py. -/
def get_policy_lists : EndpointDescriptor :=
  { verb := .get, path := "/template/policy/list/dataipv6prefix",
    response := some "DataSequence[DataIPv6PrefixListInfo]",
    resp_json_key := some "data" }

/-- Descriptor of get_policy_lists_with_info_tag in data_ipv6_prefix.py. -/
def get_policy_lists_with_info_tag : EndpointDescriptor :=
  { verb := .get, path := "/template/policy/list/dataipv6prefix/filtered",
    params := some "InfoTag",
    response := some "DataSequence[DataIPv6PrefixListInfo]",
    resp_json_key := some "data" }

/-- Descriptor of preview_policy_list in data_ipv6_prefix.py. -/
def preview_policy_list : EndpointDescriptor :=
  { verb := .post, path := "/template/policy/list/dataipv6prefix/preview",
    payload := some "DataIPv6PrefixList", response := some "PolicyListPreview" }

/-- Descriptor of preview_policy_list_by_id in data_ipv6_prefix.py. -/
def preview_policy_list_by_id : EndpointDescriptor :=
  { verb := .get, path := "/template/policy/list/dataipv6prefix/preview/\x7bid\x7d",
    response := some "PolicyListPreview" }

end ConfigurationPolicyDataIPv6PrefixList

/-- An except value for querying success. -/
def exceptIsOk : Except ε α → Bool
  | .ok _ => true
  | .error _ => false

/-- A validator of the shared shape of the range checks succeeds exactly on
strings whose int() value lies in the closed range. -/
theorem rangeValidator_ok_iff (f : String → Except String String) (lo hi : Int)
    (e1 e2 : String)
    (hf : ∀ s, f s = match pythonInt s with
      | none => .error e1
      | some v => if v < lo ∨ v > hi then .error e2 else .ok s) :
    ∀ s, f s = .ok s ↔ ∃ n, pythonInt s = some n ∧ lo ≤ n ∧ n ≤ hi := by
  intro s
  rw [hf]
  cases hp : pythonInt s with
  | none => simp
  | some v =>
    dsimp only
    split_ifs with hv
    · simp only [reduceCtorEq, false_iff]
      rintro ⟨n, hn, h1, h2⟩
      cases hn
      omega
    · simp only [Except.ok.injEq, true_iff]
      exact ⟨v, rfl, by omega, by omega⟩

theorem rangeValidator_ok_shape (f : String → Except String String) (lo hi : Int)
    (e1 e2 : String)
    (hf : ∀ s, f s = match pythonInt s with
      | none => .error e1
      | some v => if v < lo ∨ v > hi then .error e2 else .ok s) :
    ∀ s r, f s = .ok r → r = s := by
  intro s r h
  rw [hf] at h
  cases hp : pythonInt s with
  | none => rw [hp] at h; cases h
  | some v =>
    rw [hp] at h
    dsimp only at h
    split_ifs at h with hv
    exact (Except.ok.inj h).symm

theorem pySplitChar_ne_nil (sep : Char) (cs : List Char) : pySplitChar sep cs ≠ [] := by
  induction cs with
  | nil => simp [pySplitChar]
  | cons c rest ih =>
    simp only [pySplitChar]
    split_ifs
    · simp
    · cases h : pySplitChar sep rest with
      | nil => exact absurd h ih
      | cons t ts => simp [h]

theorem pySplit_ne_nil (sep : Char) (s : String) : pySplit sep s ≠ [] := by
  simp only [pySplit, ne_eq, List.map_eq_nil_iff]
  exact pySplitChar_ne_nil sep s.toList

theorem pythonIntList_length (l : List String) (vs : List Int)
    (h : pythonIntList l = some vs) : vs.length = l.length := by
  induction l generalizing vs with
  | nil => simp [pythonIntList] at h; simp [← h]
  | cons s rest ih =>
    simp only [pythonIntList] at h
    cases hp : pythonInt s with
    | none => rw [hp] at h; cases h
    | some v =>
      rw [hp] at h
      cases hr : pythonIntList rest with
      | none => rw [hr] at h; cases h
      | some ws =>
        rw [hr] at h
        cases h
        simp [ih ws hr]

theorem listSetEq_iff (a b : List String) :
    listSetEq a b = true ↔ ∀ x, x ∈ a ↔ x ∈ b := by
  simp only [listSetEq, Bool.and_eq_true, List.all_eq_true]
  constructor
  · rintro ⟨h1, h2⟩ x
    constructor
    · intro hx
      have := h1 x hx
      simpa using this
    · intro hx
      have := h2 x hx
      simpa using this
  · intro h
    constructor
    · intro x hx
      simpa using (h x).mp hx
    · intro x hx
      simpa using (h x).mpr hx

theorem check_fields_exclusive_two_ok (a b : Bool) :
    check_fields_exclusive [a, b] true = .ok () ↔ a ≠ b := by
  cases a <;> cases b <;> simp [check_fields_exclusive]

theorem exclusive_map_ok {α : Type} (a b : Bool) (x : α) (r : α)
    (h : (check_fields_exclusive [a, b] true).map (fun _ => x) = .ok r) : a ≠ b := by
  cases hc : check_fields_exclusive [a, b] true with
  | error m => rw [hc] at h; simp [Except.map] at h
  | ok u => exact (check_fields_exclusive_two_ok a b).mp (by rw [hc])

theorem exclusive_map_error {α : Type} (a : Bool) (x : α) :
    ∃ m, (check_fields_exclusive [a, a] true).map (fun _ => x) = .error m := by
  cases a
  · exact ⟨"at least one field must be set", rfl⟩
  · exact ⟨"fields are mutually exclusive", rfl⟩

theorem expectedCriteria_ne_nil_iff (t : FallbackBestTunnel) :
    t.expectedCriteria ≠ [] ↔
      (t.jitter_variance.isSome = true ∨ t.latency_variance.isSome = true
        ∨ t.loss_variance.isSome = true) := by
  cases hj : t.jitter_variance.isSome <;> cases hl : t.latency_variance.isSome <;>
    cases ho : t.loss_variance.isSome <;>
      simp [FallbackBestTunnel.expectedCriteria, hj, hl, ho]

theorem check_criteria_ok_iff (t : FallbackBestTunnel) :
    FallbackBestTunnel.check_criteria t = .ok t ↔
      ((t.jitter_variance.isSome = true ∨ t.latency_variance.isSome = true
          ∨ t.loss_variance.isSome = true)
        ∧ listSetEq t.expectedCriteria (pySplit '-' t.criteria) = true) := by
  simp only [FallbackBestTunnel.check_criteria]
  split_ifs with h1 h2 h3
  · refine iff_of_false (by simp) ?_
    rintro ⟨hs, -⟩
    have hne := (expectedCriteria_ne_nil_iff t).mpr hs
    exact hne (List.length_eq_zero.mp (by omega))
  · refine iff_of_true rfl ⟨?_, h2⟩
    apply (expectedCriteria_ne_nil_iff t).mp
    intro hnil
    apply h1
    rw [hnil]
    simp
  · refine iff_of_false (by simp) ?_
    rintro ⟨-, hset⟩
    exact h2 hset
  · refine iff_of_false (by simp) ?_
    rintro ⟨-, hset⟩
    exact h2 hset

theorem check_criteria_ok_shape (t r : FallbackBestTunnel)
    (h : FallbackBestTunnel.check_criteria t = .ok r) : r = t := by
  simp only [FallbackBestTunnel.check_criteria] at h
  split_ifs at h
  exact (Except.ok.inj h).symm

theorem check_criteria_isOk_iff (t : FallbackBestTunnel) :
    exceptIsOk (FallbackBestTunnel.check_criteria t) = true ↔
      ((t.jitter_variance.isSome = true ∨ t.latency_variance.isSome = true
          ∨ t.loss_variance.isSome = true)
        ∧ listSetEq t.expectedCriteria (pySplit '-' t.criteria) = true) := by
  constructor
  · intro h
    cases hc : FallbackBestTunnel.check_criteria t with
    | error m => rw [hc] at h; cases h
    | ok r =>
      have hr := check_criteria_ok_shape t r hc
      rw [hr] at hc
      exact (check_criteria_ok_iff t).mp hc
  · intro h
    rw [(check_criteria_ok_iff t).mpr h]
    rfl

theorem listSetEq_congr_right (E a b : List String) (hab : listSetEq a b = true) :
    (listSetEq E a = true ↔ listSetEq E b = true) := by
  rw [listSetEq_iff, listSetEq_iff]
  rw [listSetEq_iff] at hab
  constructor
  · intro h x
    exact (h x).trans (hab x)
  · intro h x
    exact (h x).trans (hab x).symm

/-- C1: check_criteria of FallbackBestTunnel succeeds exactly when at least
one variance field is set and the set of hyphen-separated tokens of the
criteria string equals the set of names of the variance fields that are set;
in every other case it raises ValueError. -/
theorem claim_C1_fallback_check_criteria :
    (∀ t : FallbackBestTunnel,
        FallbackBestTunnel.check_criteria t = .ok t ↔
          ((t.jitter_variance.isSome = true ∨ t.latency_variance.isSome = true
              ∨ t.loss_variance.isSome = true)
            ∧ listSetEq t.expectedCriteria (pySplit '-' t.criteria) = true))
  ∧ (∀ t : FallbackBestTunnel,
        ¬((t.jitter_variance.isSome = true ∨ t.latency_variance.isSome = true
              ∨ t.loss_variance.isSome = true)
            ∧ listSetEq t.expectedCriteria (pySplit '-' t.criteria) = true) →
          ∃ msg, FallbackBestTunnel.check_criteria t = .error msg) := by
  constructor
  · exact check_criteria_ok_iff
  · intro t hn
    cases hc : FallbackBestTunnel.check_criteria t with
    | error m => exact ⟨m, rfl⟩
    | ok r =>
      have hr := check_criteria_ok_shape t r hc
      rw [hr] at hc
      exact absurd ((check_criteria_ok_iff t).mp hc) hn

theorem claim_C1_fallback_check_criteria_witness :
    ∃ msg, FallbackBestTunnel.check_criteria ⟨"jitter", none, none, none⟩ = .error msg :=
  claim_C1_fallback_check_criteria.2 ⟨"jitter", none, none, none⟩ (by decide)

/-- C9: the criteria match of FallbackBestTunnel is order-insensitive and
multiplicity-insensitive: criteria strings with equal token sets validate
alike, a criteria string listing the set variance kinds in any hyphen order
is accepted, and one repeating a token is also accepted. -/
theorem claim_C9_criteria_set_insensitive :
    (∀ (t : FallbackBestTunnel) (c1 c2 : String),
        listSetEq (pySplit '-' c1) (pySplit '-' c2) = true →
          exceptIsOk (FallbackBestTunnel.check_criteria { t with criteria := c1 })
            = exceptIsOk (FallbackBestTunnel.check_criteria { t with criteria := c2 }))
  ∧ exceptIsOk (FallbackBestTunnel.check_criteria ⟨"loss-jitter", some "10", none, some "5"⟩) = true
  ∧ exceptIsOk (FallbackBestTunnel.check_criteria ⟨"jitter-jitter", some "10", none, none⟩) = true := by
  refine ⟨?_, by rfl, by rfl⟩
  intro t c1 c2 hset
  obtain ⟨cr, jv, lv, ov⟩ := t
  have h1 := check_criteria_isOk_iff ⟨c1, jv, lv, ov⟩
  have h2 := check_criteria_isOk_iff ⟨c2, jv, lv, ov⟩
  have hcon := listSetEq_congr_right
    (FallbackBestTunnel.expectedCriteria ⟨c1, jv, lv, ov⟩) _ _ hset
  apply Bool.eq_iff_iff.mpr
  rw [h1, h2]
  constructor
  · rintro ⟨hs, hq⟩
    exact ⟨hs, hcon.mp hq⟩
  · rintro ⟨hs, hq⟩
    exact ⟨hs, hcon.mpr hq⟩

theorem claim_C9_criteria_set_insensitive_witness :
    exceptIsOk (FallbackBestTunnel.check_criteria ⟨"jitter-loss", some "1", none, some "2"⟩)
      = exceptIsOk (FallbackBestTunnel.check_criteria ⟨"loss-jitter", some "1", none, some "2"⟩) :=
  claim_C9_criteria_set_insensitive.1 ⟨"x", some "1", none, some "2"⟩ "jitter-loss" "loss-jitter"
    (by decide)

/-- C2: check_jitter_ms and check_latency_ms return their input unchanged
exactly when it parses as an integer in 1-1000, check_loss_percent exactly
when it parses as an integer in 0-100; otherwise they raise ValueError; and
SLAClassListEntry and FallbackBestTunnel validation apply them to the
latency, loss and jitter fields and to the variance fields respectively. -/
theorem claim_C2_range_validators :
    (∀ s, check_jitter_ms s = .ok s ↔ ∃ n, pythonInt s = some n ∧ 1 ≤ n ∧ n ≤ 1000)
  ∧ (∀ s, check_latency_ms s = .ok s ↔ ∃ n, pythonInt s = some n ∧ 1 ≤ n ∧ n ≤ 1000)
  ∧ (∀ s, check_loss_percent s = .ok s ↔ ∃ n, pythonInt s = some n ∧ 0 ≤ n ∧ n ≤ 100)
  ∧ (∀ s r, check_jitter_ms s = .ok r → r = s)
  ∧ (∀ s r, check_latency_ms s = .ok r → r = s)
  ∧ (∀ s r, check_loss_percent s = .ok r → r = s)
  ∧ (∀ e r, SLAClassListEntry.validate e = .ok r →
        validateOptField check_latency_ms e.latency = .ok ()
        ∧ validateOptField check_loss_percent e.loss = .ok ()
        ∧ validateOptField check_jitter_ms e.jitter = .ok ())
  ∧ (∀ t r, FallbackBestTunnel.validate t = .ok r →
        validateOptField check_jitter_ms t.jitter_variance = .ok ()
        ∧ validateOptField check_latency_ms t.latency_variance = .ok ()
        ∧ validateOptField check_loss_percent t.loss_variance = .ok ()) := by
  refine ⟨rangeValidator_ok_iff check_jitter_ms 1 1000 _ _ (fun _ => rfl),
    rangeValidator_ok_iff check_latency_ms 1 1000 _ _ (fun _ => rfl),
    rangeValidator_ok_iff check_loss_percent 0 100 _ _ (fun _ => rfl),
    rangeValidator_ok_shape check_jitter_ms 1 1000 _ _ (fun _ => rfl),
    rangeValidator_ok_shape check_latency_ms 1 1000 _ _ (fun _ => rfl),
    rangeValidator_ok_shape check_loss_percent 0 100 _ _ (fun _ => rfl),
    ?_, ?_⟩
  · intro e r h
    unfold SLAClassListEntry.validate at h
    cases h1 : validateOptField check_latency_ms e.latency with
    | error m => rw [h1] at h; simp at h
    | ok u =>
      cases u
      rw [h1] at h
      dsimp only at h
      cases h2 : validateOptField check_loss_percent e.loss with
      | error m => rw [h2] at h; simp at h
      | ok u =>
        cases u
        rw [h2] at h
        dsimp only at h
        cases h3 : validateOptField check_jitter_ms e.jitter with
        | error m => rw [h3] at h; simp at h
        | ok u =>
          cases u
          exact ⟨rfl, rfl, rfl⟩
  · intro t r h
    unfold FallbackBestTunnel.validate at h
    cases h1 : validateOptField check_jitter_ms t.jitter_variance with
    | error m => rw [h1] at h; simp at h
    | ok u =>
      cases u
      rw [h1] at h
      dsimp only at h
      cases h2 : validateOptField check_latency_ms t.latency_variance with
      | error m => rw [h2] at h; simp at h
      | ok u =>
        cases u
        rw [h2] at h
        dsimp only at h
        cases h3 : validateOptField check_loss_percent t.loss_variance with
        | error m => rw [h3] at h; simp at h
        | ok u =>
          cases u
          exact ⟨rfl, rfl, rfl⟩

theorem claim_C2_range_validators_witness :
    ("10" = "10")
  ∧ (validateOptField check_latency_ms (some "10") = .ok ()
      ∧ validateOptField check_loss_percent (some "5") = .ok ()
      ∧ validateOptField check_jitter_ms (some "20") = .ok ()) := by
  obtain ⟨-, -, -, h4, -, -, h7, -⟩ := claim_C2_range_validators
  exact ⟨h4 "10" "10" rfl,
    h7 ⟨some "10", some "5", some "20", none, none⟩
      ⟨some "10", some "5", some "20", none, none⟩ rfl⟩

/-- C5: SLAClassListEntry validation succeeds only if at least one of
latency, loss, jitter is set, and with all three None it raises ValueError
with the at-least-one message, producing no record. -/
theorem claim_C5_sla_at_least_one :
    (∀ e r, SLAClassListEntry.validate e = .ok r →
        (e.latency.isSome = true ∨ e.loss.isSome = true ∨ e.jitter.isSome = true))
  ∧ (∀ e : SLAClassListEntry, e.latency = none → e.loss = none → e.jitter = none →
        SLAClassListEntry.validate e
          = .error "At leas one of jitter, loss or latency entries must be set") := by
  constructor
  · intro e r h
    by_contra hno
    push_neg at hno
    obtain ⟨hl, ho, hj⟩ := hno
    simp only [Bool.not_eq_true] at hl ho hj
    have hl2 : e.latency = none := by cases hx : e.latency; rfl; rw [hx] at hl; simp at hl
    have ho2 : e.loss = none := by cases hx : e.loss; rfl; rw [hx] at ho; simp at ho
    have hj2 : e.jitter = none := by cases hx : e.jitter; rfl; rw [hx] at hj; simp at hj
    rw [SLAClassListEntry.validate] at h
    rw [hl2, ho2, hj2] at h
    simp [validateOptField, SLAClassListEntry.check_at_least_one_criteria_is_set,
      pyTruthy, hl2, ho2, hj2] at h
  · intro e hl ho hj
    rw [SLAClassListEntry.validate, hl, ho, hj]
    simp [validateOptField, SLAClassListEntry.check_at_least_one_criteria_is_set,
      pyTruthy, hl, ho, hj]

theorem claim_C5_sla_at_least_one_witness :
    SLAClassListEntry.validate ⟨none, none, none, none, none⟩
      = .error "At leas one of jitter, loss or latency entries must be set" :=
  claim_C5_sla_at_least_one.2 ⟨none, none, none, none, none⟩ rfl rfl rfl

/-- C6: the burst field of PolicerListEntry is accepted exactly when it
parses as an integer in 15000-10000000, the rate field exactly when it
parses as an integer in 8-100000000000; otherwise ValueError is raised; and
entry validation succeeds exactly when both field validators accept. -/
theorem claim_C6_policer_ranges :
    (∀ s, PolicerListEntry.check_burst s = .ok s ↔
        ∃ n, pythonInt s = some n ∧ 15000 ≤ n ∧ n ≤ 10000000)
  ∧ (∀ s, PolicerListEntry.check_rate s = .ok s ↔
        ∃ n, pythonInt s = some n ∧ 8 ≤ n ∧ n ≤ 100000000000)
  ∧ (∀ e, PolicerListEntry.validate e = .ok e ↔
        (PolicerListEntry.check_burst e.burst = .ok e.burst
          ∧ PolicerListEntry.check_rate e.rate = .ok e.rate)) := by
  refine ⟨rangeValidator_ok_iff PolicerListEntry.check_burst 15000 10000000 _ _ (fun _ => rfl),
    rangeValidator_ok_iff PolicerListEntry.check_rate 8 100000000000 _ _ (fun _ => rfl), ?_⟩
  intro e
  constructor
  · intro h
    rw [PolicerListEntry.validate] at h
    cases h1 : PolicerListEntry.check_burst e.burst with
    | error m => rw [h1] at h; simp at h
    | ok v =>
      have hv := rangeValidator_ok_shape PolicerListEntry.check_burst 15000 10000000 _ _
        (fun _ => rfl) _ _ h1
      rw [h1] at h
      dsimp only at h
      cases h2 : PolicerListEntry.check_rate e.rate with
      | error m => rw [h2] at h; simp at h
      | ok w =>
        have hw := rangeValidator_ok_shape PolicerListEntry.check_rate 8 100000000000 _ _
          (fun _ => rfl) _ _ h2
        subst hv hw
        exact ⟨rfl, rfl⟩
  · rintro ⟨h1, h2⟩
    rw [PolicerListEntry.validate, h1, h2]

theorem zone_validate_ok_xor (e : ZoneListEntry) (r : ZoneListEntry)
    (h : ZoneListEntry.validate e = .ok r) :
    e.vpn.isSome ≠ e.interface.isSome := by
  rw [ZoneListEntry.validate] at h
  cases h1 : validateOptField ZoneListEntry.check_vpn_range e.vpn with
  | error m => rw [h1] at h; simp at h
  | ok u =>
    rw [h1] at h
    dsimp only at h
    exact exclusive_map_ok _ _ _ _ h

/-- C4: for ZoneListEntry, GeoLocationListEntry, LocalAppListEntry and
AppListEntry, validation succeeds only when exactly one of the two governed
fields is set, and raises both when both are set and when neither is set. -/
theorem claim_C4_exclusive_fields :
    ((∀ e r, ZoneListEntry.validate e = .ok r → e.vpn.isSome ≠ e.interface.isSome)
      ∧ (∀ e : ZoneListEntry, e.vpn.isSome = e.interface.isSome →
          ∃ m, ZoneListEntry.validate e = .error m))
  ∧ ((∀ e r, GeoLocationListEntry.validate e = .ok r → e.country.isSome ≠ e.continent.isSome)
      ∧ (∀ e : GeoLocationListEntry, e.country.isSome = e.continent.isSome →
          ∃ m, GeoLocationListEntry.validate e = .error m))
  ∧ ((∀ e r, LocalAppListEntry.validate e = .ok r → e.app.isSome ≠ e.app_family.isSome)
      ∧ (∀ e : LocalAppListEntry, e.app.isSome = e.app_family.isSome →
          ∃ m, LocalAppListEntry.validate e = .error m))
  ∧ ((∀ e r, AppListEntry.validate e = .ok r → e.app.isSome ≠ e.app_family.isSome)
      ∧ (∀ e : AppListEntry, e.app.isSome = e.app_family.isSome →
          ∃ m, AppListEntry.validate e = .error m)) := by
  refine ⟨⟨zone_validate_ok_xor, ?_⟩, ⟨?_, ?_⟩, ⟨?_, ?_⟩, ⟨?_, ?_⟩⟩
  · intro e hab
    cases hv : ZoneListEntry.validate e with
    | error m => exact ⟨m, rfl⟩
    | ok r => exact absurd (zone_validate_ok_xor e r hv) (by rw [hab]; simp)
  · intro e r h
    exact exclusive_map_ok _ _ _ _ h
  · intro e hab
    rw [GeoLocationListEntry.validate, GeoLocationListEntry.check_country_xor_continent, hab]
    exact exclusive_map_error _ _
  · intro e r h
    exact exclusive_map_ok _ _ _ _ h
  · intro e hab
    rw [LocalAppListEntry.validate, LocalAppListEntry.check_app_xor_appfamily, hab]
    exact exclusive_map_error _ _
  · intro e r h
    exact exclusive_map_ok _ _ _ _ h
  · intro e hab
    rw [AppListEntry.validate, AppListEntry.check_app_xor_appfamily, hab]
    exact exclusive_map_error _ _

theorem claim_C4_exclusive_fields_witness :
    (∃ m, ZoneListEntry.validate ⟨none, none⟩ = .error m)
  ∧ (∃ m, GeoLocationListEntry.validate ⟨some "FRA", some "EU"⟩ = .error m)
  ∧ (∃ m, LocalAppListEntry.validate ⟨none, none⟩ = .error m)
  ∧ (∃ m, AppListEntry.validate ⟨some "f", some "a"⟩ = .error m) := by
  obtain ⟨⟨-, hz⟩, ⟨-, hg⟩, ⟨-, hl⟩, ⟨-, ha⟩⟩ := claim_C4_exclusive_fields
  exact ⟨hz ⟨none, none⟩ rfl, hg ⟨some "FRA", some "EU"⟩ rfl,
    hl ⟨none, none⟩ rfl, ha ⟨some "f", some "a"⟩ rfl⟩

/-- C10: in PrefixListEntry and IPv6PrefixListEntry the ge and le fields are
validated independently, each as an integer in 0-32 respectively 0-128, with
no relation between them checked: validation succeeds exactly when each set
field passes its own range check, so any pair of in-range values is
accepted, also with ge greater than le. -/
theorem claim_C10_ge_le_independent :
    (∀ e : PrefixListEntry, PrefixListEntry.validate e = .ok e ↔
        (validateOptField PrefixListEntry.check_ge_and_le e.ge = .ok ()
          ∧ validateOptField PrefixListEntry.check_ge_and_le e.le = .ok ()))
  ∧ (∀ s, PrefixListEntry.check_ge_and_le s = .ok s ↔
        ∃ n, pythonInt s = some n ∧ 0 ≤ n ∧ n ≤ 32)
  ∧ (∀ ip g l gn ln, pythonInt g = some gn → 0 ≤ gn → gn ≤ 32 →
        pythonInt l = some ln → 0 ≤ ln → ln ≤ 32 →
          PrefixListEntry.validate ⟨ip, some g, some l⟩ = .ok ⟨ip, some g, some l⟩)
  ∧ (∀ e : IPv6PrefixListEntry, IPv6PrefixListEntry.validate e = .ok e ↔
        (validateOptField IPv6PrefixListEntry.check_ge_and_le e.ge = .ok ()
          ∧ validateOptField IPv6PrefixListEntry.check_ge_and_le e.le = .ok ()))
  ∧ (∀ s, IPv6PrefixListEntry.check_ge_and_le s = .ok s ↔
        ∃ n, pythonInt s = some n ∧ 0 ≤ n ∧ n ≤ 128)
  ∧ (∀ ip g l gn ln, pythonInt g = some gn → 0 ≤ gn → gn ≤ 128 →
        pythonInt l = some ln → 0 ≤ ln → ln ≤ 128 →
          IPv6PrefixListEntry.validate ⟨ip, some g, some l⟩ = .ok ⟨ip, some g, some l⟩) := by
  have hiff4 := rangeValidator_ok_iff PrefixListEntry.check_ge_and_le 0 32 _ _ (fun _ => rfl)
  have hiff6 := rangeValidator_ok_iff IPv6PrefixListEntry.check_ge_and_le 0 128 _ _ (fun _ => rfl)
  refine ⟨?_, hiff4, ?_, ?_, hiff6, ?_⟩
  · intro e
    constructor
    · intro h
      rw [PrefixListEntry.validate] at h
      cases h1 : validateOptField PrefixListEntry.check_ge_and_le e.ge with
      | error m => rw [h1] at h; simp at h
      | ok u =>
        cases u
        rw [h1] at h
        dsimp only at h
        cases h2 : validateOptField PrefixListEntry.check_ge_and_le e.le with
        | error m => rw [h2] at h; simp at h
        | ok u =>
          cases u
          exact ⟨rfl, rfl⟩
    · rintro ⟨h1, h2⟩
      rw [PrefixListEntry.validate, h1, h2]
  · intro ip g l gn ln hg hg0 hg32 hl hl0 hl32
    have h1 : PrefixListEntry.check_ge_and_le g = .ok g := (hiff4 g).mpr ⟨gn, hg, hg0, hg32⟩
    have h2 : PrefixListEntry.check_ge_and_le l = .ok l := (hiff4 l).mpr ⟨ln, hl, hl0, hl32⟩
    rw [PrefixListEntry.validate]
    simp only [validateOptField, h1, h2, Except.map]
  · intro e
    constructor
    · intro h
      rw [IPv6PrefixListEntry.validate] at h
      cases h1 : validateOptField IPv6PrefixListEntry.check_ge_and_le e.ge with
      | error m => rw [h1] at h; simp at h
      | ok u =>
        cases u
        rw [h1] at h
        dsimp only at h
        cases h2 : validateOptField IPv6PrefixListEntry.check_ge_and_le e.le with
        | error m => rw [h2] at h; simp at h
        | ok u =>
          cases u
          exact ⟨rfl, rfl⟩
    · rintro ⟨h1, h2⟩
      rw [IPv6PrefixListEntry.validate, h1, h2]
  · intro ip g l gn ln hg hg0 hg128 hl hl0 hl128
    have h1 : IPv6PrefixListEntry.check_ge_and_le g = .ok g := (hiff6 g).mpr ⟨gn, hg, hg0, hg128⟩
    have h2 : IPv6PrefixListEntry.check_ge_and_le l = .ok l := (hiff6 l).mpr ⟨ln, hl, hl0, hl128⟩
    rw [IPv6PrefixListEntry.validate]
    simp only [validateOptField, h1, h2, Except.map]

theorem claim_C10_ge_le_independent_witness :
    PrefixListEntry.validate ⟨⟨0, 0⟩, some "30", some "2"⟩
      = .ok ⟨⟨0, 0⟩, some "30", some "2"⟩
  ∧ IPv6PrefixListEntry.validate ⟨⟨0, 0⟩, some "120", some "3"⟩
      = .ok ⟨⟨0, 0⟩, some "120", some "3"⟩ := by
  obtain ⟨-, -, h3, -, -, h6⟩ := claim_C10_ge_le_independent
  exact ⟨h3 ⟨0, 0⟩ "30" "2" 30 2 rfl (by decide) (by decide) rfl (by decide) (by decide),
    h6 ⟨0, 0⟩ "120" "3" 120 3 rfl (by decide) (by decide) rfl (by decide) (by decide)⟩

/-- C3: the vpn field of VPNListEntry is accepted exactly when it is a
single integer in 0-65530 or two integers separated by one hyphen, both in
range, with the first strictly below the second; more than two parts, values
out of range, parse failures and non-increasing ranges raise ValueError. -/
theorem claim_C3_vpn_range :
    ∀ s, VPNListEntry.check_vpn_range s = .ok s ↔
      ∃ vs, pythonIntList (pySplit '-' s) = some vs ∧
        ((∃ a, vs = [a] ∧ 0 ≤ a ∧ a ≤ 65530)
          ∨ (∃ a b, vs = [a, b] ∧ 0 ≤ a ∧ a ≤ 65530 ∧ 0 ≤ b ∧ b ≤ 65530 ∧ a < b)) := by
  intro s
  rw [VPNListEntry.check_vpn_range]
  cases hm : pythonIntList (pySplit '-' s) with
  | none => simp
  | some vs =>
    dsimp only
    have hlen := pythonIntList_length _ _ hm
    have hnn := pySplit_ne_nil '-' s
    rcases vs with - | ⟨a, - | ⟨b, - | ⟨c, rest⟩⟩⟩
    · exact absurd (List.length_eq_zero.mp hlen.symm) hnn
    · simp only [List.length_cons, List.length_nil, List.any_cons, List.any_nil,
        Option.some.injEq]
      split_ifs with h1 h2
      · omega
      · refine iff_of_false (by simp) ?_
        rintro ⟨vs', hvs', h | h⟩
        · obtain ⟨x, hx, hx0, hx65⟩ := h
          subst hvs'
          cases hx
          simp at h2
          omega
        · obtain ⟨x, y, hxy, -⟩ := h
          subst hvs'
          cases hxy
      · refine iff_of_true rfl ?_
        refine ⟨[a], rfl, Or.inl ⟨a, rfl, ?_, ?_⟩⟩
        · simp at h2
          omega
        · simp at h2
          omega
    · simp only [List.length_cons, List.length_nil, List.any_cons, List.any_nil,
        Option.some.injEq]
      split_ifs with h1 h2 h3
      · omega
      · refine iff_of_false (by simp) ?_
        rintro ⟨vs', hvs', h | h⟩
        · obtain ⟨x, hx, -⟩ := h
          subst hvs'
          cases hx
        · obtain ⟨x, y, hxy, hx0, hx65, hy0, hy65, hxy2⟩ := h
          subst hvs'
          cases hxy
          simp at h2
          omega
      · refine iff_of_false (by simp) ?_
        rintro ⟨vs', hvs', h | h⟩
        · obtain ⟨x, hx, -⟩ := h
          subst hvs'
          cases hx
        · obtain ⟨x, y, hxy, hx0, hx65, hy0, hy65, hxy2⟩ := h
          subst hvs'
          cases hxy
          omega
      · refine iff_of_true rfl ?_
        simp at h2
        refine ⟨[a, b], rfl, Or.inr ⟨a, b, rfl, ?_, ?_, ?_, ?_, ?_⟩⟩ <;> omega
    · simp only [List.length_cons] at *
      split_ifs with h1
      · refine iff_of_false (by simp) ?_
        rintro ⟨vs', hvs', h | h⟩
        · obtain ⟨x, hx, -⟩ := h
          rw [Option.some.injEq] at hvs'
          subst hvs'
          cases hx
        · obtain ⟨x, y, hxy, -⟩ := h
          rw [Option.some.injEq] at hvs'
          subst hvs'
          cases hxy
      all_goals exact absurd (by omega : rest.length + 1 + 1 + 1 > 2) h1

/-- C7: for models declared with populate_by_name, construction from the
code-friendly field names and construction from the wire-name aliases give
equal records for every value: DataPrefixListEntry from ip_prefix versus
ipPrefix, and ColorGroupPreference from color_preference and path_preference
versus colorPreference and pathPreference. -/
theorem claim_C7_alias_equivalence :
    (∀ v : IPv4Network,
        DataPrefixListEntry.from_dict [("ip_prefix", v)]
            = DataPrefixListEntry.from_dict [("ipPrefix", v)]
          ∧ DataPrefixListEntry.from_dict [("ip_prefix", v)] = some ⟨v⟩)
  ∧ (∀ cp pp : String,
        ColorGroupPreference.from_dict [("color_preference", cp), ("path_preference", pp)]
          = ColorGroupPreference.from_dict [("colorPreference", cp), ("pathPreference", pp)]) :=
  ⟨fun _ => ⟨rfl, rfl⟩, fun _ _ => rfl⟩

/-- C8: each endpoint descriptor carries the declared HTTP verb, path,
payload type and response shape: the create, delete, edit and get methods of
ConfigurationPolicyAppProbeClassList over /template/policy/list/appprobe and
of ConfigurationPolicyDataIPv6PrefixList over
/template/policy/list/dataipv6prefix. -/
theorem claim_C8_endpoint_descriptors :
    ConfigurationPolicyAppProbeClassList.create_policy_list
      = { verb := .post, path := "/template/policy/list/appprobe",
          payload := some "AppProbeClassList", response := some "PolicyListId" }
  ∧ ConfigurationPolicyAppProbeClassList.delete_policy_list
      = { verb := .delete, path := "/template/policy/list/appprobe/\x7bid\x7d" }
  ∧ ConfigurationPolicyAppProbeClassList.edit_policy_list
      = { verb := .put, path := "/template/policy/list/appprobe/\x7bid\x7d",
          payload := some "AppProbeClassListEditPayload" }
  ∧ ConfigurationPolicyAppProbeClassList.get_policy_lists
      = { verb := .get, path := "/template/policy/list/appprobe",
          response := some "DataSequence[AppProbeClassListInfo]",
          resp_json_key := some "data" }
  ∧ ConfigurationPolicyDataIPv6PrefixList.create_policy_list
      = { verb := .post, path := "/template/policy/list/dataipv6prefix",
          payload := some "DataIPv6PrefixList", response := some "PolicyListId" }
  ∧ ConfigurationPolicyDataIPv6PrefixList.delete_policy_list
      = { verb := .delete, path := "/template/policy/list/dataipv6prefix/\x7bid\x7d" }
  ∧ ConfigurationPolicyDataIPv6PrefixList.edit_policy_list
      = { verb := .put, path := "/template/policy/list/dataipv6prefix/\x7bid\x7d",
          payload := some "DataIPv6PrefixListEditPayload" }
  ∧ ConfigurationPolicyDataIPv6PrefixList.get_policy_lists
      = { verb := .get, path := "/template/policy/list/dataipv6prefix",
          response := some "DataSequence[DataIPv6PrefixListInfo]",
          resp_json_key := some "data" } :=
  ⟨rfl, rfl, rfl, rfl, rfl, rfl, rfl, rfl⟩
